import Mathlib

/-!
Shallow embedding of the WASVD core (src-tauri/src): the marker catalog
(marker.rs), the error taxonomy (error.rs), instruction lowering and
block-tree assembly (instruction.rs), the stack-based validator
(validator.rs) and the module-assembly fold (main.rs), together with
theorems settling the specification claims against them.

Conventions:
- Rust `Vec` used as a stack (push/pop at the end) is a `List` in the same
  order: index 0 is the bottom; `vec_push`/`vec_pop` operate on the end.
- Rust `HashMap`/`HashSet` become association lists / lists with
  insert-overwrites semantics; iteration order is never relied upon by the
  embedded code paths.
- Rust `Result<T, WatError>` becomes `Except Failure T`, where `Failure`
  distinguishes returned error values (`Failure.error`) from panics
  (`Failure.panicked`) caused by `assert!`, `unwrap` or `todo!`.
- Byte arrays are carried as their big-endian numeric value (`Nat`).
-/

namespace WASVD

/-- marker.rs `SerializableWatType`: the closed set of value types. -/
inductive SerializableWatType
  | I32
  | I64
  | F32
  | F64
  | V128
deriving DecidableEq, Repr

/-- error.rs `ErrorStage`. -/
inductive ErrorStage
  | Parsing
  | TypeChecking
  | NameResolving
  | Unimplemented
deriving DecidableEq, Repr

/-- main.rs `NumLocationKind`: the kind tag stored with an export. -/
inductive NumLocationKind
  | Function
  | Global
  | Memory
deriving DecidableEq, Repr

/-- error.rs `WatError`: one constructor per construction function of the
Rust `impl WatError`, carrying that function's arguments.  The Rust struct
stores a stage plus a formatted message string; the constructor identity
plus arguments determine both, so this embedding keeps every distinction
the code can make.  Debug renderings of instructions (in
`invalid_instruction`) are dropped. -/
inductive WatError
  | unimplementedError (msg : String)
  | invalidInstruction (expectedType : String)
  | nameResolutionError (name : String) (kind : NumLocationKind)
  | localResolutionError (name : String)
  | labelResolutionError (name : String)
  | typeError (expected actual : SerializableWatType)
  | settingImmutableGlobalError (name : String)
  | noInstructionProvided (expectedType : String)
  | nonInitializerExpression
  | notEnoughOnStack (expected actual : Nat)
  | mismatchedInout (expected actual : List SerializableWatType) (isReturn : Bool)
  | duplicateNameError (name : String)
  | unexpectedType (expected actual : SerializableWatType)
  | elseWithoutIfError
  | indexOutOfRangeRange (expected actual : Nat)
  | wrongArityError (expected actual : Nat)
  | extraItemsOnStackError (values : List SerializableWatType)
deriving DecidableEq, Repr

/-- The stage recorded by each error.rs construction function. -/
def WatError.stage : WatError → ErrorStage
  | .unimplementedError _ => .Unimplemented
  | .invalidInstruction _ => .Parsing
  | .nameResolutionError _ _ => .NameResolving
  | .localResolutionError _ => .NameResolving
  | .labelResolutionError _ => .NameResolving
  | .typeError _ _ => .TypeChecking
  | .settingImmutableGlobalError _ => .TypeChecking
  | .noInstructionProvided _ => .TypeChecking
  | .nonInitializerExpression => .TypeChecking
  | .notEnoughOnStack _ _ => .TypeChecking
  | .mismatchedInout _ _ _ => .TypeChecking
  | .duplicateNameError _ => .NameResolving
  | .unexpectedType _ _ => .TypeChecking
  | .elseWithoutIfError => .TypeChecking
  | .indexOutOfRangeRange _ _ => .TypeChecking
  | .wrongArityError _ _ => .TypeChecking
  | .extraItemsOnStackError _ => .TypeChecking

/-- Outcome of running embedded Rust code that may return an error value or
panic.  `error` models `Err(WatError)`; `panicked` models a Rust panic
(`assert!`, `Option::unwrap` on `None`, `todo!`). -/
inductive Failure
  | error (e : WatError)
  | panicked (msg : String)
deriving DecidableEq, Repr

/-- Rust `WatResult<T> = Result<T, WatError>`, extended so panics are
visible as a distinct outcome. -/
abbrev WatResult (α : Type) := Except Failure α

/-- error.rs `WatError::not_enough_on_stack`: contains
`assert!(actual < expected)`, so calls with `actual >= expected` panic
instead of producing an error value. -/
def notEnoughOnStackChecked (expected actual : Nat) : Failure :=
  if actual < expected then
    .error (.notEnoughOnStack expected actual)
  else
    .panicked "assertion failed: actual < expected"

/-- error.rs `WatError::empty_stack`: delegates to `not_enough_on_stack`
with `actual = 0`. -/
def emptyStack (expected : Nat) : Failure :=
  notEnoughOnStackChecked expected 0

/-- Push at the end of a `Vec`. -/
def vec_push (l : List α) (x : α) : List α := l ++ [x]

/-- `Vec::pop`: removes and returns the last element. -/
def vec_pop (l : List α) : Option (α × List α) :=
  match l.reverse with
  | [] => none
  | x :: rest => some (x, rest.reverse)

/-- Rust `str::parse::<usize>`: some of the numeric value when the string
is a non-empty run of decimal digits, none otherwise.  (Rust also accepts
a leading plus sign and fails above `usize::MAX`; neither matters for the
identifiers considered here.) -/
def str_parse_usize (s : String) : Option Nat :=
  if s.data ≠ [] ∧ s.data.all Char.isDigit then
    some (s.data.foldl (fun acc c => acc * 10 + (c.toNat - 48)) 0)
  else
    none

/-- validator.rs `try_name_to_index`: parse the name as an index,
`Ok(index)` on success else `Err(original name)`. -/
def try_name_to_index (name : String) : Except String Nat :=
  match str_parse_usize name with
  | some n => .ok n
  | none => .error name

/-- Association-list insert with `HashMap::insert` semantics: an existing
binding for the key is overwritten, otherwise the binding is appended. -/
def hmInsert (m : List (String × α)) (k : String) (v : α) : List (String × α) :=
  if m.any (fun p => p.1 = k) then
    m.map (fun p => if p.1 = k then (k, v) else p)
  else
    m ++ [(k, v)]

/-- Association-list lookup standing in for `HashMap::get`. -/
def hmGet (m : List (String × α)) (k : String) : Option α :=
  (m.find? (fun p => p.1 = k)).map Prod.snd

/-- validator.rs `ValueMapping`: positional values plus a name-to-index
map. -/
structure ValueMapping (Value : Type) where
  values : List Value
  mapping : List (String × Nat)
deriving DecidableEq, Repr

/-- validator.rs `ValueMapping::new`. -/
def ValueMapping.new : ValueMapping Value := ⟨[], []⟩

/-- validator.rs `ValueMapping::get_by_index`. -/
def ValueMapping.get_by_index (m : ValueMapping Value) (index : Nat) : Option Value :=
  m.values.get? index

/-- validator.rs `ValueMapping::get_by_name`. -/
def ValueMapping.get_by_name (m : ValueMapping Value) (name : String) : Option Value :=
  (hmGet m.mapping name).bind (fun index => m.get_by_index index)

/-- validator.rs `ValueMapping::get`: parse the key as an index, on
success get by index, otherwise get by name. -/
def ValueMapping.get (m : ValueMapping Value) (key : String) : Option Value :=
  match str_parse_usize key with
  | some index => m.get_by_index index
  | none => m.get_by_name key

/-- validator.rs `impl FromIterator<(Option<String>, Value)> for
ValueMapping`: enumerate-and-fold, recording names beside positions. -/
def ValueMapping.fromList (l : List (Option String × Value)) : ValueMapping Value :=
  (l.enum.foldl
    (fun this p =>
      let idx := p.1
      let maybe_name := p.2.1
      let val := p.2.2
      { values := this.values ++ [val]
        mapping :=
          match maybe_name with
          | some name => hmInsert this.mapping name idx
          | none => this.mapping })
    ValueMapping.new)

/-- marker.rs `ComparisonOperation`. -/
inductive ComparisonOperation
  | EqualZero
  | Equal
  | NotEqual
  | LessThenSigned
  | LessThenUnsigned
  | GreaterThenSigned
  | GreaterThenUnsigned
  | LessThenOrEqualToSigned
  | LessThenOrEqualToUnsigned
  | GreaterThenOrEqualToSigned
  | GreaterThenOrEqualToUnsigned
deriving DecidableEq, Repr

/-- marker.rs `ArithmeticOperation`. -/
inductive ArithmeticOperation
  | Addition
  | Subtraction
  | Multiplication
  | DivisonSigned
  | DivisonUnsigned
  | RemainderSigned
  | RemainderUnsigned
deriving DecidableEq, Repr

/-- marker.rs `BitwiseOperation`. -/
inductive BitwiseOperation
  | CountLeadingZero
  | CountTrailingZero
  | CountNonZero
  | And
  | Or
  | Xor
  | ShiftLeft
  | ShiftRightSigned
  | ShiftRightUnsigned
  | RotateLeft
  | RotateRight
deriving DecidableEq, Repr

/-- marker.rs `FloatOperation`. -/
inductive FloatOperation
  | AbsoluteValue
  | Negation
  | Ceiling
  | Floor
  | Truncate
  | Nearest
  | SquareRoot
  | Minimum
  | Maximum
  | CopySign
deriving DecidableEq, Repr

/-- marker.rs `NumericConversionKind`. -/
inductive NumericConversionKind
  | WrapInt
  | SignedTruncF32ToI32
  | UnsignedTruncF32ToI32
  | SignedTruncF64ToI32
  | UnsignedTruncF64ToI32
  | SignedTruncF32ToI64
  | UnsignedTruncF32ToI64
  | SignedTruncF64ToI64
  | UnsignedTruncF64ToI64
  | SignedExtend
  | UnsignedExtend
  | SignedConvertI32ToF32
  | UnsignedConvertI32ToF32
  | SignedConvertI64ToF32
  | UnsignedConvertI64ToF32
  | SignedConvertI32ToF64
  | UnsignedConvertI32ToF64
  | SignedConvertI64ToF64
  | UnsignedConvertI64ToF64
  | DemoteFloat
  | PromoteFloat
  | Reinterpret32FToI
  | Reinterpret32IToF
  | Reinterpret64FToI
  | Reinterpret64IToF
deriving DecidableEq, Repr

/-- marker.rs `SimpleInstruction`. -/
inductive SimpleInstruction
  | Unreachable
  | Nop
  | Drop
  | Return
deriving DecidableEq, Repr

/-- marker.rs `BlockKind`. -/
inductive BlockKind
  | Block
  | If
  | Else
  | Loop
  | End
deriving DecidableEq, Repr

/-- marker.rs `DataInstruction`. -/
inductive DataInstruction
  | GetLocal
  | GetGlobal
  | SetLocal
  | SetGlobal
  | TeeLocal
  | GetMemorySize
  | SetMemorySize
deriving DecidableEq, Repr

/-- marker.rs `ByteKind`. -/
inductive ByteKind
  | Bits8
  | Bits16
  | Bits32
  | Bits64
deriving DecidableEq, Repr

/-- helper.rs `SerializedNumber`: a type-tagged byte container.  The two
4-byte arrays are carried as their big-endian numeric value. -/
structure SerializedNumber where
  first_bytes : Nat
  second_bytes : Option Nat
  typ : SerializableWatType
deriving DecidableEq, Repr

/-- helper.rs `impl From<i32> for SerializedNumber`: the four big-endian
bytes of the two's-complement representation. -/
def SerializedNumber.from_i32 (value : Int) : SerializedNumber :=
  { first_bytes := (value % (2 ^ 32 : Int)).toNat
    second_bytes := none
    typ := .I32 }

/-- helper.rs `impl From<i64> for SerializedNumber`: high 4 bytes in
`first_bytes`, low 4 bytes in `second_bytes`. -/
def SerializedNumber.from_i64 (value : Int) : SerializedNumber :=
  let u := (value % (2 ^ 64 : Int)).toNat
  { first_bytes := u / 2 ^ 32
    second_bytes := some (u % 2 ^ 32)
    typ := .I64 }

/-- helper.rs `impl From<Float32> for SerializedNumber` (big-endian bits). -/
def SerializedNumber.from_f32 (bits : Nat) : SerializedNumber :=
  { first_bytes := bits % 2 ^ 32
    second_bytes := none
    typ := .F32 }

/-- helper.rs `impl From<Float64> for SerializedNumber`.  The Rust code
splits `bits.to_ne_bytes()` (native-endian, unlike the big-endian used for
the other types); we take the big-endian reading.  Only the `typ` field is
relevant to the claims. -/
def SerializedNumber.from_f64 (bits : Nat) : SerializedNumber :=
  { first_bytes := (bits % 2 ^ 64) / 2 ^ 32
    second_bytes := some (bits % 2 ^ 32)
    typ := .F64 }

/-- instruction.rs `InputOutput`: a function or block signature. -/
structure InputOutput where
  index : Option String := none
  input : List (Option String × SerializableWatType) := []
  output : List SerializableWatType := []
deriving DecidableEq, Repr

/-- Modelled from the spec: `InputOutput::get_input_types` is called by
validator.rs (lines 282, 289, 342) but its definition is missing from the
repository sources; per section 4.4 the inputs of a signature are the
value types of its ordered input list, identifiers dropped. -/
def InputOutput.get_input_types (io : InputOutput) : List SerializableWatType :=
  io.input.map Prod.snd

/-- wast `Index`: numeric index or symbolic identifier (span dropped). -/
inductive Index
  | Num (n : Nat)
  | Id (name : String)
deriving DecidableEq, Repr

/-- instruction.rs `index_to_string`. -/
def index_to_string : Index → String
  | .Num idx => toString idx
  | .Id id => id

/-- wast `BlockType` payload of `block` / `loop` / `if`: optional label and
signature.  The `TypeUse` to `InputOutput` conversion of the external
parser AST is modelled as already performed (it only renames fields on the
supported subset). -/
structure BlockType where
  label : Option String
  ty : InputOutput
deriving DecidableEq, Repr

/-- The subset of the external parser's `wast::core::Instruction` AST that
the claims exercise; lowering is embedded on exactly these variants. -/
inductive Instruction
  | Unreachable
  | Nop
  | Drop
  | Return
  | Block (b : BlockType)
  | If (b : BlockType)
  | Loop (b : BlockType)
  | Else (e : Option String)
  | End (e : Option String)
  | Br (i : Index)
  | BrIf (i : Index)
  | LocalGet (i : Index)
  | LocalSet (i : Index)
  | LocalTee (i : Index)
  | GlobalGet (i : Index)
  | GlobalSet (i : Index)
  | MemorySize (mem : Index)
  | MemoryGrow (mem : Index)
  | I32Const (v : Int)
  | I64Const (v : Int)
  | F32Const (bits : Nat)
  | F64Const (bits : Nat)
deriving DecidableEq, Repr

/-- marker.rs `try_simple_instruction_from`. -/
def try_simple_instruction_from : Instruction → Option SimpleInstruction
  | .Unreachable => some .Unreachable
  | .Nop => some .Nop
  | .Drop => some .Drop
  | .Return => some .Return
  | _ => none

/-- marker.rs `try_block_kind_from`. -/
def try_block_kind_from : Instruction → Option BlockKind
  | .Block _ => some .Block
  | .If _ => some .If
  | .Else _ => some .Else
  | .Loop _ => some .Loop
  | .End _ => some .End
  | _ => none

/-- marker.rs `try_data_instruction_from` (lines 430-441), arm for arm: the
source maps `GlobalGet` to `SetGlobal` and `GlobalSet` to `GetGlobal`. -/
def try_data_instruction_from : Instruction → Option DataInstruction
  | .LocalGet _ => some .GetLocal
  | .LocalSet _ => some .SetLocal
  | .LocalTee _ => some .TeeLocal
  | .GlobalGet _ => some .SetGlobal
  | .GlobalSet _ => some .GetGlobal
  | .MemorySize _ => some .GetMemorySize
  | .MemoryGrow _ => some .SetMemorySize
  | _ => none

/-- instruction.rs `SerializedInstruction`: the normalized instruction. -/
inductive SerializedInstruction
  | Simple (s : SimpleInstruction)
  | Block (label : String) (kind : BlockKind) (inout : Option InputOutput)
  | Branch (default_label : String) (other_labels : List String) (is_conditional : Bool)
  | Call (index : String) (inout : InputOutput)
  | Data (kind : DataInstruction) (location : String)
  | Memory (location : String) (typ : SerializableWatType) (count : ByteKind)
      (offset : Nat) (alignment : ByteKind) (is_storing : Bool)
  | Const (typ : SerializableWatType) (value : SerializedNumber)
  | Comparison (kind : ComparisonOperation) (typ : SerializableWatType)
  | Arithmetic (kind : ArithmeticOperation) (typ : SerializableWatType)
  | Bitwise (kind : BitwiseOperation) (is_64_bit : Bool)
  | Float (kind : FloatOperation) (is_64_bit : Bool)
  | Cast (c : NumericConversionKind)
  | DefaultString (msg : String)
deriving DecidableEq, Repr

/-- instruction.rs `impl TryFrom<&Instruction> for SerializedInstruction`
(lines 634-898), restricted to the modelled AST subset.  Note the
`F64Const` arm (source lines 746-749): the produced `Const` carries type
tag `I64`, not `F64`. -/
def SerializedInstruction.try_from (value : Instruction) : WatResult SerializedInstruction :=
  match value with
  | .Unreachable | .Nop | .Return | .Drop =>
    match try_simple_instruction_from value with
    | some s => .ok (.Simple s)
    | none => .error (.error (.invalidInstruction "Simple"))
  | .Block b | .If b | .Loop b =>
    match try_block_kind_from value with
    | some kind => .ok (.Block (b.label.getD "") kind (some b.ty))
    | none => .error (.error (.invalidInstruction "Block Kind"))
  | .Else e | .End e =>
    match try_block_kind_from value with
    | some kind => .ok (.Block (e.getD "") kind none)
    | none => .error (.error (.invalidInstruction "Block Kind"))
  | .Br i => .ok (.Branch (index_to_string i) [] false)
  | .BrIf i => .ok (.Branch (index_to_string i) [] true)
  | .LocalGet i | .LocalSet i | .LocalTee i | .GlobalGet i | .GlobalSet i =>
    match try_data_instruction_from value with
    | some kind => .ok (.Data kind (index_to_string i))
    | none => .error (.error (.invalidInstruction "Data"))
  | .MemorySize mem | .MemoryGrow mem =>
    match try_data_instruction_from value with
    | some kind => .ok (.Data kind (index_to_string mem))
    | none => .error (.panicked "called Option unwrap on a None value")
  | .I32Const v => .ok (.Const .I32 (SerializedNumber.from_i32 v))
  | .I64Const v => .ok (.Const .I64 (SerializedNumber.from_i64 v))
  | .F32Const bits => .ok (.Const .F32 (SerializedNumber.from_f32 bits))
  | .F64Const bits => .ok (.Const .I64 (SerializedNumber.from_f64 bits))

/-- validator.rs `ControlFrame`. -/
structure ControlFrame where
  opcode : BlockKind
  label : Option String
  start_types : List SerializableWatType
  end_types : List SerializableWatType
  height : Nat
  unreachable : Bool
deriving DecidableEq, Repr

/-- validator.rs `ControlFrame::is_if`. -/
def ControlFrame.is_if (f : ControlFrame) : Bool :=
  f.opcode = BlockKind.If

/-- validator.rs `Validator`: value stack and control stack (Vec order,
bottom first) plus the module context.  `memory_names` stands in for the
`HashSet<String>`. -/
structure Validator where
  value_stack : List SerializableWatType
  control_stack : List ControlFrame
  globals : ValueMapping (Bool × SerializableWatType)
  memory_names : List String
  functions : ValueMapping (List SerializableWatType × List SerializableWatType)
deriving DecidableEq, Repr

/-- validator.rs `Validator::reset_stack`. -/
def Validator.reset_stack (v : Validator) : Validator :=
  { v with value_stack := [], control_stack := [] }

/-- validator.rs `Validator::push_val`. -/
def Validator.push_val (v : Validator) (typ : SerializableWatType) : Validator :=
  { v with value_stack := vec_push v.value_stack typ }

/-- validator.rs `Validator::pop_val`. -/
def Validator.pop_val (v : Validator) : WatResult (SerializableWatType × Validator) :=
  match vec_pop v.value_stack with
  | some (typ, rest) => .ok (typ, { v with value_stack := rest })
  | none => .error (emptyStack 1)

/-- validator.rs `Validator::expected_pop_val`. -/
def Validator.expected_pop_val (v : Validator) (expected : SerializableWatType) :
    WatResult (SerializableWatType × Validator) :=
  match v.pop_val with
  | .error e => .error e
  | .ok (actual, v') =>
    if actual ≠ expected then
      .error (.error (.unexpectedType expected actual))
    else
      .ok (actual, v')

/-- validator.rs `Validator::push_vals`. -/
def Validator.push_vals (v : Validator) (types : List SerializableWatType) : Validator :=
  types.foldl (fun acc typ => acc.push_val typ) v

/-- Recursion core of `pop_vals`: expect-pop each type of the given
(already reversed) list in order. -/
def Validator.pop_vals_rev (v : Validator) :
    List SerializableWatType → WatResult (List SerializableWatType × Validator)
  | [] => .ok ([], v)
  | typ :: rest =>
    match v.expected_pop_val typ with
    | .error e => .error e
    | .ok (x, v') =>
      match v'.pop_vals_rev rest with
      | .error e => .error e
      | .ok (xs, v'') => .ok (x :: xs, v'')

/-- validator.rs `Validator::pop_vals`: pop in reverse order (the last
element of `types` is matched against the current top), returning the
popped values in the original order. -/
def Validator.pop_vals (v : Validator) (types : List SerializableWatType) :
    WatResult (List SerializableWatType × Validator) :=
  match v.pop_vals_rev types.reverse with
  | .error e => .error e
  | .ok (xs, v') => .ok (xs.reverse, v')

/-- validator.rs `Validator::push_control`: `height` is the value-stack
length at push time; an empty label string is recorded as `None`. -/
def Validator.push_control (v : Validator) (opcode : BlockKind) (label : String)
    (input output : List SerializableWatType) : Validator :=
  let frame : ControlFrame :=
    { opcode := opcode
      label := if label = "" then none else some label
      start_types := input
      end_types := output
      height := v.value_stack.length
      unreachable := false }
  { v with control_stack := vec_push v.control_stack frame }

/-- validator.rs `Validator::pop_control`: pop the frame, pop its end
types, then require the value stack back at `frame.height`; the mismatch
branch calls `WatError::not_enough_on_stack(frame.height, len)`, which
panics when `len > frame.height`. -/
def Validator.pop_control (v : Validator) : WatResult (ControlFrame × Validator) :=
  match vec_pop v.control_stack with
  | none => .error (emptyStack 1)
  | some (frame, rest) =>
    let v := { v with control_stack := rest }
    match v.pop_vals frame.end_types with
    | .error e => .error e
    | .ok (_, v') =>
      if v'.value_stack.length ≠ frame.height then
        .error (notEnoughOnStackChecked frame.height v'.value_stack.length)
      else
        .ok (frame, v')

/-- validator.rs `Validator::label_types`. -/
def Validator.label_types (frame : ControlFrame) : List SerializableWatType :=
  if frame.opcode = BlockKind.Loop then frame.start_types else frame.end_types

/-- validator.rs `Validator::unreachable` (lines 253-258): set the top
frame's `unreachable` flag.  The source's `value_stack.reserve(height)` is
a capacity hint with no semantic effect.  No frame, no effect. -/
def Validator.set_unreachable (v : Validator) : Validator :=
  match vec_pop v.control_stack with
  | some (top, rest) =>
    { v with control_stack := vec_push rest { top with unreachable := true } }
  | none => v

/-- validator.rs `Validator::try_get_control_frame` (lines 580-602): a
numeric label indexes the control stack with `Vec::get`, i.e. from the
bottom; a symbolic label is the first frame from the bottom whose label
matches, else a label-resolution error. -/
def Validator.try_get_control_frame (v : Validator) (label : String) :
    WatResult ControlFrame :=
  match try_name_to_index label with
  | .ok index =>
    match v.control_stack.get? index with
    | some cf => .ok cf
    | none => .error (.error (.indexOutOfRangeRange v.control_stack.length index))
  | .error name =>
    match v.control_stack.find? (fun cf => cf.label = some name) with
    | some cf => .ok cf
    | none => .error (.error (.labelResolutionError name))

/-- Recursion core of the `br_table` `try_for_each` loop (validator.rs
lines 326-334): for each extra label, resolve its frame, require the same
arity as the default labels, pop those types and push them back. -/
def Validator.branch_table_labels (v : Validator)
    (default_vals : List SerializableWatType) (arity : Nat) :
    List String → WatResult Validator
  | [] => .ok v
  | label :: rest =>
    match v.try_get_control_frame label with
    | .error e => .error e
    | .ok frame =>
      let vals := Validator.label_types frame
      if vals.length ≠ arity then
        .error (.error (.mismatchedInout default_vals vals false))
      else
        match v.pop_vals vals with
        | .error e => .error e
        | .ok (popped, v') =>
          (v'.push_vals popped).branch_table_labels default_vals arity rest

/-- validator.rs `Validator::validate` (lines 260-578): the
per-instruction dispatch. -/
def Validator.validate (v : Validator) (instruction : SerializedInstruction)
    (output : List SerializableWatType) (locals : ValueMapping SerializableWatType) :
    WatResult Validator :=
  match instruction with
  | .Simple s =>
    match s with
    | .Unreachable => .ok v.set_unreachable
    | .Nop => .ok v
    | .Drop =>
      match v.pop_val with
      | .error e => .error e
      | .ok (_, v') => .ok v'
    | .Return =>
      match v.pop_vals output with
      | .error e => .error e
      | .ok (_, v') => .ok v'
  | .Block label kind inout =>
    match kind with
    | .Block | .Loop =>
      match inout with
      | none => .error (.panicked "called Option unwrap on a None value")
      | some io =>
        let input := io.get_input_types
        let outTypes := io.output
        match v.pop_vals input with
        | .error e => .error e
        | .ok (_, v') => .ok (v'.push_control kind label input outTypes)
    | .If =>
      match inout with
      | none => .error (.panicked "called Option unwrap on a None value")
      | some io =>
        let input := io.get_input_types
        let outTypes := io.output
        match v.expected_pop_val .I32 with
        | .error e => .error e
        | .ok (_, v') =>
          match v'.pop_vals input with
          | .error e => .error e
          | .ok (_, v'') => .ok (v''.push_control kind label input outTypes)
    | .Else =>
      match v.pop_control with
      | .error e => .error e
      | .ok (frame, v') =>
        if ¬frame.is_if then
          .error (.error .elseWithoutIfError)
        else
          .ok (v'.push_control kind label frame.start_types frame.end_types)
    | .End =>
      match v.pop_control with
      | .error e => .error e
      | .ok (frame, v') => .ok (v'.push_vals frame.end_types)
  | .Branch default_label other_labels is_conditional =>
    match v.try_get_control_frame default_label with
    | .error e => .error e
    | .ok default_frame =>
      let default_vals := Validator.label_types default_frame
      if other_labels = [] then
        if is_conditional then
          match v.expected_pop_val .I32 with
          | .error e => .error e
          | .ok (_, v1) =>
            match v1.pop_vals default_vals with
            | .error e => .error e
            | .ok (_, v2) => .ok (v2.push_vals default_vals)
        else
          match v.pop_vals default_vals with
          | .error e => .error e
          | .ok (_, v1) => .ok v1.set_unreachable
      else
        match v.expected_pop_val .I32 with
        | .error e => .error e
        | .ok (_, v1) =>
          let arity := default_vals.length
          match v1.branch_table_labels default_vals arity other_labels with
          | .error e => .error e
          | .ok v2 =>
            match v2.pop_vals default_vals with
            | .error e => .error e
            | .ok (_, v3) => .ok v3.set_unreachable
  | .Call index inout =>
    match v.functions.get index with
    | some _ =>
      match v.pop_vals inout.get_input_types with
      | .error e => .error e
      | .ok (_, v') => .ok (v'.push_vals inout.output)
    | none => .error (.error (.nameResolutionError index .Function))
  | .Data kind location =>
    match kind with
    | .GetLocal =>
      match locals.get location with
      | some typ => .ok (v.push_val typ)
      | none => .error (.error (.localResolutionError location))
    | .GetGlobal =>
      match v.globals.get location with
      | some (_, typ) => .ok (v.push_val typ)
      | none => .error (.error (.nameResolutionError location .Global))
    | .SetLocal =>
      match locals.get location with
      | some typ =>
        match v.expected_pop_val typ with
        | .error e => .error e
        | .ok (_, v') => .ok v'
      | none => .error (.error (.localResolutionError location))
    | .SetGlobal =>
      match v.globals.get location with
      | some (mutable, typ) =>
        if mutable then
          match v.expected_pop_val typ with
          | .error e => .error e
          | .ok (_, v') => .ok v'
        else
          .error (.error (.settingImmutableGlobalError location))
      | none => .error (.error (.nameResolutionError location .Global))
    | .TeeLocal =>
      match locals.get location with
      | some typ =>
        match v.expected_pop_val typ with
        | .error e => .error e
        | .ok (_, v') => .ok (v'.push_val typ)
      | none => .error (.error (.localResolutionError location))
    | .GetMemorySize =>
      if v.memory_names.contains location then
        .ok (v.push_val .I32)
      else
        .error (.error (.nameResolutionError location .Memory))
    | .SetMemorySize =>
      if v.memory_names.contains location then
        match v.expected_pop_val .I32 with
        | .error e => .error e
        | .ok (_, v') => .ok (v'.push_val .I32)
      else
        .error (.error (.nameResolutionError location .Memory))
  | .Memory location typ _ _ _ is_storing =>
    if v.memory_names.contains location then
      if is_storing then
        match v.expected_pop_val typ with
        | .error e => .error e
        | .ok (_, v1) =>
          match v1.expected_pop_val .I32 with
          | .error e => .error e
          | .ok (_, v2) => .ok v2
      else
        match v.expected_pop_val .I32 with
        | .error e => .error e
        | .ok (_, v1) => .ok (v1.push_val typ)
    else
      .error (.error (.nameResolutionError location .Memory))
  | .Const typ _ => .ok (v.push_val typ)
  | .Arithmetic _ typ =>
    match v.expected_pop_val typ with
    | .error e => .error e
    | .ok (_, v1) =>
      match v1.expected_pop_val typ with
      | .error e => .error e
      | .ok (_, v2) => .ok (v2.push_val typ)
  | .Comparison kind typ =>
    if kind = ComparisonOperation.EqualZero then
      .ok (v.push_val .I32)
    else
      match v.expected_pop_val typ with
      | .error e => .error e
      | .ok (_, v1) =>
        match v1.expected_pop_val typ with
        | .error e => .error e
        | .ok (_, v2) => .ok (v2.push_val .I32)
  | .Bitwise kind is_64_bit =>
    let typ : SerializableWatType := if is_64_bit then .I64 else .I32
    if kind = BitwiseOperation.CountLeadingZero ∨ kind = BitwiseOperation.CountTrailingZero
        ∨ kind = BitwiseOperation.CountNonZero then
      match v.expected_pop_val typ with
      | .error e => .error e
      | .ok (_, v1) => .ok (v1.push_val typ)
    else
      match v.expected_pop_val typ with
      | .error e => .error e
      | .ok (_, v1) =>
        match v1.expected_pop_val typ with
        | .error e => .error e
        | .ok (_, v2) => .ok (v2.push_val typ)
  | .Float kind is_64_bit =>
    let typ : SerializableWatType := if is_64_bit then .F64 else .F32
    if kind = FloatOperation.Minimum ∨ kind = FloatOperation.Maximum
        ∨ kind = FloatOperation.CopySign then
      match v.expected_pop_val typ with
      | .error e => .error e
      | .ok (_, v1) =>
        match v1.expected_pop_val typ with
        | .error e => .error e
        | .ok (_, v2) => .ok (v2.push_val typ)
    else
      match v.expected_pop_val typ with
      | .error e => .error e
      | .ok (_, v1) => .ok (v1.push_val typ)
  | .Cast c =>
    let sig : SerializableWatType × SerializableWatType :=
      match c with
      | .WrapInt => (.I64, .I32)
      | .SignedTruncF32ToI32 | .UnsignedTruncF32ToI32 => (.F32, .I32)
      | .SignedTruncF64ToI32 | .UnsignedTruncF64ToI32 => (.F64, .I32)
      | .SignedTruncF32ToI64 | .UnsignedTruncF32ToI64 => (.F32, .I64)
      | .SignedTruncF64ToI64 | .UnsignedTruncF64ToI64 => (.F64, .I64)
      | .SignedExtend | .UnsignedExtend => (.I32, .I64)
      | .SignedConvertI32ToF32 | .UnsignedConvertI32ToF32 => (.I32, .F32)
      | .SignedConvertI64ToF32 | .UnsignedConvertI64ToF32 => (.I64, .F32)
      | .SignedConvertI32ToF64 | .UnsignedConvertI32ToF64 => (.I32, .F64)
      | .SignedConvertI64ToF64 | .UnsignedConvertI64ToF64 => (.I64, .F64)
      | .DemoteFloat => (.F64, .F32)
      | .PromoteFloat => (.F32, .F64)
      | .Reinterpret32FToI => (.F32, .I32)
      | .Reinterpret32IToF => (.I32, .F32)
      | .Reinterpret64FToI => (.F64, .I64)
      | .Reinterpret64IToF => (.I64, .F64)
    match v.expected_pop_val sig.1 with
    | .error e => .error e
    | .ok (_, v1) => .ok (v1.push_val sig.2)
  | .DefaultString msg =>
    .error (.error (.unimplementedError ("Instruction not supported: " ++ msg)))

/-- The `for` loop of validator.rs `validate_function` (lines 613-615):
validate each instruction in order, aborting on the first failure. -/
def Validator.validate_body (v : Validator) (instructions : List SerializedInstruction)
    (results : List SerializableWatType) (local_vars : ValueMapping SerializableWatType) :
    WatResult Validator :=
  match instructions with
  | [] => .ok v
  | i :: rest =>
    match v.validate i results local_vars with
    | .error e => .error e
    | .ok v' => v'.validate_body rest results local_vars

/-- validator.rs `Validator::validate_function` (lines 604-622): reset the
stacks, build the local map from `params ++ locals`, validate the body,
pop the declared result types, and require an empty value stack.  The Rust
method mutates `self` and returns `Ok(())`; the embedding returns the
final state. -/
def Validator.validate_function (v : Validator) (instructions : List SerializedInstruction)
    (params locals : List (Option String × SerializableWatType))
    (results : List SerializableWatType) : WatResult Validator :=
  match (v.reset_stack).validate_body instructions results
      (ValueMapping.fromList (params ++ locals)) with
  | .error e => .error e
  | .ok v1 =>
    match v1.pop_vals results with
    | .error e => .error e
    | .ok (_, v2) =>
      if v2.value_stack ≠ [] then
        .error (.error (.extraItemsOnStackError v2.value_stack))
      else
        .ok v2

/-- instruction.rs `MarkBlock`. -/
inductive MarkBlock
  | Regular
  | Loop
  | If
  | Else
deriving DecidableEq, Repr

/-- instruction.rs `SerializedInstructionNode`: the block-tree node. -/
inductive SerializedInstructionNode
  | NonBlock (i : SerializedInstruction)
  | SingleBlock (label : String) (inout : InputOutput) (is_loop : Bool)
      (inner_nodes : List SerializedInstructionNode)
  | ConditionalBlock (label : String) (inout : InputOutput)
      (then_nodes else_nodes : List SerializedInstructionNode)

/-- A frame of the tree builder's `wait_stack`: the outer siblings
collected so far, the frame kind, its label and its signature. -/
structure WaitFrame where
  nodes : List SerializedInstructionNode
  mark : MarkBlock
  label : String
  inout : InputOutput

/-- The loop state of `SerializedInstructionTree::try_from`. -/
structure TreeState where
  wait_stack : List WaitFrame
  current : List SerializedInstructionNode
  has_func_ended : Bool

/-- One iteration of the `for` loop of instruction.rs
`SerializedInstructionTree::try_from` (lines 949-1028), applied to the
already-lowered instruction.  On `End` closing an `Else` frame the source
runs `assert!(label_then == label)` (line 985): differing labels panic. -/
def tree_step (st : TreeState) (si : SerializedInstruction) : WatResult TreeState :=
  match si with
  | .Block label kind inout =>
    match kind with
    | .Block =>
      match inout with
      | none => .error (.panicked "called Option unwrap on a None value")
      | some io =>
        .ok { st with
          wait_stack := vec_push st.wait_stack ⟨st.current, .Regular, label, io⟩
          current := [] }
    | .Loop =>
      match inout with
      | none => .error (.panicked "called Option unwrap on a None value")
      | some io =>
        .ok { st with
          wait_stack := vec_push st.wait_stack ⟨st.current, .Loop, label, io⟩
          current := [] }
    | .If =>
      match inout with
      | none => .error (.panicked "called Option unwrap on a None value")
      | some io =>
        .ok { st with
          wait_stack := vec_push st.wait_stack ⟨st.current, .If, label, io⟩
          current := [] }
    | .Else =>
      .ok { st with
        wait_stack := vec_push st.wait_stack ⟨st.current, .Else, label, {}⟩
        current := [] }
    | .End =>
      match vec_pop st.wait_stack with
      | some (frame, rest) =>
        if frame.mark = MarkBlock.Else then
          let else_nodes := st.current
          let then_nodes := frame.nodes
          match vec_pop rest with
          | none => .error (.error (.unimplementedError "No if block provided"))
          | some (if_frame, rest2) =>
            if if_frame.mark ≠ MarkBlock.If then
              .error (.error (.unimplementedError "No if block before else provided"))
            else if if_frame.label ≠ frame.label then
              .error (.panicked "assertion failed: label_then == label")
            else
              let if_else_block := SerializedInstructionNode.ConditionalBlock
                frame.label if_frame.inout then_nodes else_nodes
              .ok { st with
                wait_stack := rest2
                current := if_frame.nodes ++ [if_else_block] }
        else if frame.mark = MarkBlock.If then
          let if_block := SerializedInstructionNode.ConditionalBlock
            frame.label frame.inout st.current []
          .ok { st with
            wait_stack := rest
            current := frame.nodes ++ [if_block] }
        else
          let block := SerializedInstructionNode.SingleBlock
            frame.label frame.inout (frame.mark = MarkBlock.Loop) st.current
          .ok { st with
            wait_stack := rest
            current := frame.nodes ++ [block] }
      | none =>
        if ¬st.has_func_ended then
          .ok { st with has_func_ended := true }
        else
          .error (.error (.invalidInstruction "No"))
  | _ => .ok { st with current := st.current ++ [.NonBlock si] }

/-- The loop of `SerializedInstructionTree::try_from`: lower each parser
instruction, then feed it to `tree_step`. -/
def tree_run (st : TreeState) : List Instruction → WatResult TreeState
  | [] => .ok st
  | instruction :: rest =>
    match SerializedInstruction.try_from instruction with
    | .error e => .error e
    | .ok si =>
      match tree_step st si with
      | .error e => .error e
      | .ok st' => tree_run st' rest

/-- instruction.rs `impl TryFrom<&[Instruction]> for
SerializedInstructionTree` (lines 942-1031): run the loop from the empty
state; `assert!(wait_stack.is_empty())` at the end panics on unclosed
blocks; the result is the root sibling list. -/
def SerializedInstructionTree.try_from (value : List Instruction) :
    WatResult (List SerializedInstructionNode) :=
  match tree_run ⟨[], [], false⟩ value with
  | .error e => .error e
  | .ok st =>
    if st.wait_stack.isEmpty then
      .ok st.current
    else
      .error (.panicked "assertion failed: wait_stack.is_empty()")

/-- main.rs `GlobalData`.  The initializer list is carried as normalized
instructions; the per-instruction lowering duplicate in main.rs
(`OLDSerializedInstruction::try_from`) is not re-modelled, as no claim
depends on initializer contents. -/
structure GlobalData where
  name : String
  typ : SerializableWatType
  is_mutable : Bool
  val : List SerializedInstruction
deriving DecidableEq, Repr

/-- main.rs `MemoryData`. -/
structure MemoryData where
  name : String
  min_lower : Nat
  min_upper : Nat
  max_lower : Nat
  max_upper : Nat
  is_32 : Bool
  is_shared : Bool
  data : List Nat
deriving DecidableEq, Repr

/-- main.rs `MemoryData::new`: the min/max u64 values are split into lower
and upper 32-bit words (the `to_ne_bytes` / `from_ne_bytes` round trip is
the identity on each half); a missing max defaults to `u32::MAX`. -/
def MemoryData.new (name : String) (min : Nat) (max : Option Nat)
    (is_32 is_shared : Bool) (data : List Nat) : MemoryData :=
  let minv := min % 2 ^ 64
  let maxv := (max.getD (2 ^ 32 - 1)) % 2 ^ 64
  { name := name
    min_lower := minv % 2 ^ 32
    min_upper := minv / 2 ^ 32
    max_lower := maxv % 2 ^ 32
    max_upper := maxv / 2 ^ 32
    is_32 := is_32
    is_shared := is_shared
    data := data }

/-- main.rs `WastFunc`, body omitted: the old duplicate lowering that
fills it is irrelevant to the export-registration claims. -/
structure WastFunc where
  name : Option String
  parameters : List (Option String × SerializableWatType)
  locals : List (Option String × SerializableWatType)
  result : List SerializableWatType
deriving DecidableEq, Repr

/-- main.rs `WastFunc::set_name_from_number`. -/
def WastFunc.set_name_from_number (f : WastFunc) (index : Nat) : WastFunc :=
  { f with name := some (toString index) }

/-- A `ModuleField::Func` payload on the supported (inline, non-import)
path: inline export names, optional identifier, and the signature data
`WastFunc::try_from` copies over. -/
structure FuncField where
  exports : List String
  id : Option String
  parameters : List (Option String × SerializableWatType)
  locals : List (Option String × SerializableWatType)
  result : List SerializableWatType
deriving DecidableEq, Repr

/-- A `ModuleField::Memory` payload on the supported
(`MemoryKind::Normal`) path. -/
structure MemField where
  exports : List String
  id : Option String
  min : Nat
  max : Option Nat
  is_32 : Bool
  shared : Bool
deriving DecidableEq, Repr

/-- A `ModuleField::Global` payload on the supported
(`GlobalKind::Inline`) path. -/
structure GlobalField where
  exports : List String
  id : Option String
  typ : SerializableWatType
  mutable : Bool
  init : List SerializedInstruction
deriving DecidableEq, Repr

/-- wast `ExportKind`, restricted to the kinds main.rs implements
(`Table` and `Tag` hit `todo!`). -/
inductive ExportKind
  | Func
  | Memory
  | Global
deriving DecidableEq, Repr

/-- A `ModuleField::Export` payload. -/
structure ExportField where
  name : String
  kind : ExportKind
  item : Index
deriving DecidableEq, Repr

/-- The subset of wast `ModuleField` that main.rs `try_new` implements;
every other field variant is a `todo!()` panic in the source. -/
inductive ModuleField
  | Func (f : FuncField)
  | Memory (m : MemField)
  | Global (g : GlobalField)
  | Export (e : ExportField)
deriving DecidableEq, Repr

/-- main.rs `InterpreterStructure`; `exported` is the association-list
stand-in for `HashMap<String, (NumLocationKind, u32)>`. -/
structure InterpreterStructure where
  name : String
  exported : List (String × (NumLocationKind × Nat))
  globals : List GlobalData
  memory : List MemoryData
  func : List WastFunc
deriving DecidableEq, Repr

/-- The `WastFunc::try_from` conversion on the modelled inline path:
copies identifier and signature data (always succeeds here; the import
path and ref-type failures are outside the modelled subset). -/
def WastFunc.try_from (f : FuncField) : WastFunc :=
  { name := f.id
    parameters := f.parameters
    locals := f.locals
    result := f.result }

/-- The running accumulator of `try_new`. -/
structure AssemblyState where
  exported : List (String × (NumLocationKind × Nat))
  globals : List GlobalData
  memory : List MemoryData
  func : List WastFunc
deriving DecidableEq, Repr

/-- Find the first index and element satisfying the predicate, as the
`for (i, x) in xs.iter().enumerate()` search loops of the Export arm do. -/
def findWithIndex (p : α → Bool) (xs : List α) : Option (Nat × α) :=
  xs.enum.find? (fun q => p q.2)

/-- One iteration of main.rs `InterpreterStructure::try_new`'s field loop
(lines 2363-2496).  Inline exports are registered before the item is
pushed; note that the Memory arm (line 2386) and the Global arm (line
2428) both register `func.len()` as the index. -/
def assembly_step (st : AssemblyState) (field : ModuleField) : WatResult AssemblyState :=
  match field with
  | .Func f =>
    let exported := f.exports.foldl
      (fun ex name => hmInsert ex name (NumLocationKind.Function, st.func.length))
      st.exported
    let function := WastFunc.try_from f
    let function :=
      if function.name = none then function.set_name_from_number st.func.length
      else function
    .ok { st with exported := exported, func := st.func ++ [function] }
  | .Memory m =>
    let exported := m.exports.foldl
      (fun ex name => hmInsert ex name (NumLocationKind.Memory, st.func.length))
      st.exported
    .ok { st with
      exported := exported
      memory := st.memory ++
        [MemoryData.new (m.id.getD "") m.min m.max m.is_32 m.shared []] }
  | .Global g =>
    let exported := g.exports.foldl
      (fun ex name => hmInsert ex name (NumLocationKind.Global, st.func.length))
      st.exported
    .ok { st with
      exported := exported
      globals := st.globals ++ [⟨g.id.getD "", g.typ, g.mutable, g.init⟩] }
  | .Export e =>
    match e.kind with
    | .Func =>
      match findWithIndex (fun f => f.name = some (index_to_string e.item)) st.func with
      | some (i, _) =>
        .ok { st with exported := hmInsert st.exported e.name (NumLocationKind.Function, i) }
      | none => .ok st
    | .Memory =>
      match findWithIndex (fun m => m.name = index_to_string e.item) st.memory with
      | some (i, _) =>
        .ok { st with exported := hmInsert st.exported e.name (NumLocationKind.Memory, i) }
      | none => .ok st
    | .Global =>
      match findWithIndex (fun g => g.name = index_to_string e.item) st.globals with
      | some (i, _) =>
        .ok { st with exported := hmInsert st.exported e.name (NumLocationKind.Global, i) }
      | none => .ok st

/-- Fold of `assembly_step` over the module fields. -/
def assembly_run (st : AssemblyState) : List ModuleField → WatResult AssemblyState
  | [] => .ok st
  | field :: rest =>
    match assembly_step st field with
    | .error e => .error e
    | .ok st' => assembly_run st' rest

/-- main.rs `InterpreterStructure::try_new` on the modelled field subset:
fold the fields and package the result (a missing module name becomes the
empty string). -/
def InterpreterStructure.try_new (fields : List ModuleField) (name : Option String) :
    WatResult InterpreterStructure :=
  match assembly_run ⟨[], [], [], []⟩ fields with
  | .error e => .error e
  | .ok st => .ok ⟨name.getD "", st.exported, st.globals, st.memory, st.func⟩

/-- A validator over an empty module: no globals, memories or functions. -/
def emptyValidator : Validator := ⟨[], [], ValueMapping.new, [], ValueMapping.new⟩

/-- A validator over a module with a single immutable global `g : i32`,
as `Validator::new` collects it from `(g.name, (g.is_mutable, g.typ))`. -/
def g_validator : Validator :=
  ⟨[], [], ValueMapping.fromList [(some "g", (false, SerializableWatType.I32))],
    [], ValueMapping.new⟩

/-- Bottom frame of the two-frame control stack used against claim C3. -/
def outerFrame : ControlFrame := ⟨.Block, some "outer", [], [.I32], 0, false⟩

/-- Top (innermost) frame of the two-frame control stack used against
claim C3. -/
def innerFrame : ControlFrame := ⟨.Loop, some "inner", [.F32], [], 0, false⟩

/-- A validator whose control stack holds `outerFrame` below
`innerFrame` (Vec order: bottom first). -/
def depth2Validator : Validator :=
  ⟨[], [outerFrame, innerFrame], ValueMapping.new, [], ValueMapping.new⟩

/-- Validator state after the body of the two-constant example: value
stack `[I32, I32]`. -/
def twoConstState : Validator := ⟨[.I32, .I32], [], ValueMapping.new, [], ValueMapping.new⟩

/-- `twoConstState` after popping one declared `I32` result. -/
def oneConstState : Validator := ⟨[.I32], [], ValueMapping.new, [], ValueMapping.new⟩

/-- A validator inside a block frame of empty signature whose value stack
holds one extra operand above the frame's recorded height. -/
def extraItemValidator : Validator :=
  ⟨[.I32], [⟨.Block, none, [], [], 0, false⟩], ValueMapping.new, [], ValueMapping.new⟩

/-- Module fields: an unexported function, then a memory with inline
export "m", then an immutable global with inline export "g". -/
def exampleFields : List ModuleField :=
  [ .Func ⟨[], some "f0", [], [], []⟩
  , .Memory ⟨["m"], some "mem", 1, none, true, false⟩
  , .Global ⟨["g"], some "gid", .I32, false, []⟩ ]

/-- The module structure `try_new` assembles from `exampleFields`. -/
def exampleStructure : InterpreterStructure :=
  ⟨"",
    [("m", (NumLocationKind.Memory, 1)), ("g", (NumLocationKind.Global, 1))],
    [⟨"gid", .I32, false, []⟩],
    [MemoryData.new "mem" 1 none true false []],
    [⟨some "f0", [], [], []⟩]⟩

theorem vec_pop_append (l : List α) (x : α) : vec_pop (l ++ [x]) = some (x, l) := by
  simp [vec_pop]

/-- C1: the claim says that after `Unreachable` sets the current control
frame's `unreachable` flag, operand-consuming instructions validate
regardless of stack contents, and in particular `unreachable` followed by
an arithmetic instruction validates.  The code sets the flag but never
reads it (`pop_val` checks only emptiness), so both at function top level
and inside a block whose frame carries `unreachable = true`, a following
`i32.add` on an empty stack is rejected with the empty-stack
type-checking error instead of validating. -/
theorem claim_C1 :
    Validator.validate_function emptyValidator
      [.Simple .Unreachable, .Arithmetic .Addition .I32] [] [] []
      = .error (.error (.notEnoughOnStack 1 0))
    ∧ Validator.validate_body emptyValidator.reset_stack
        [.Block "" .Block (some {}), .Simple .Unreachable] [] ValueMapping.new
      = .ok ⟨[], [⟨.Block, none, [], [], 0, true⟩], ValueMapping.new, [], ValueMapping.new⟩
    ∧ Validator.validate_function emptyValidator
        [.Block "" .Block (some {}), .Simple .Unreachable,
          .Arithmetic .Addition .I32, .Block "" .End none] [] [] []
      = .error (.error (.notEnoughOnStack 1 0)) :=
  ⟨rfl, rfl, rfl⟩

/-- C2: the claim says lowering maps `global.get` to `GetGlobal` and
`global.set` to `SetGlobal`, so `global.set` on an immutable global is
rejected with the immutable-global error.  The source swaps the two arms
(marker.rs lines 435-436): `global.set` lowers to `GetGlobal`, which the
validator treats as a read, pushing the global's type without any
mutability check; the immutable-global error is instead raised by the
`SetGlobal` kind, i.e. by a lowered `global.get`.  A body performing
`i32.const` then `global.set $g` on the immutable global is rejected only
later with the extra-items-on-stack error. -/
theorem claim_C2 :
    try_data_instruction_from (.GlobalSet (.Id "g")) = some .GetGlobal
    ∧ try_data_instruction_from (.GlobalGet (.Id "g")) = some .SetGlobal
    ∧ SerializedInstruction.try_from (.GlobalSet (.Id "g")) = .ok (.Data .GetGlobal "g")
    ∧ Validator.validate g_validator (.Data .GetGlobal "g") [] ValueMapping.new
      = .ok { g_validator with value_stack := [.I32] }
    ∧ Validator.validate { g_validator with value_stack := [.I32] }
        (.Data .SetGlobal "g") [] ValueMapping.new
      = .error (.error (.settingImmutableGlobalError "g"))
    ∧ Validator.validate_function g_validator
        [.Const .I32 (SerializedNumber.from_i32 5), .Data .GetGlobal "g"] [] [] []
      = .error (.error (.extraItemsOnStackError [.I32, .I32])) :=
  ⟨rfl, rfl, rfl, rfl, rfl, rfl⟩

/-- C3: the claim says a numeric label n resolves to the frame n
positions below the top of the control stack (depth 0 = innermost).  The
source indexes the control stack with `Vec::get`, i.e. from the bottom:
on a two-frame stack with `innerFrame` on top, label "0" resolves to the
bottom `outerFrame` and label "1" to the top `innerFrame` — the opposite
of the claim.  Only the out-of-range half of the claim holds: label "2"
fails with the index-out-of-range error. -/
theorem claim_C3 :
    depth2Validator.try_get_control_frame "0" = .ok outerFrame
    ∧ depth2Validator.try_get_control_frame "1" = .ok innerFrame
    ∧ depth2Validator.try_get_control_frame "2"
      = .error (.error (.indexOutOfRangeRange 2 2))
    ∧ outerFrame ≠ innerFrame :=
  ⟨rfl, rfl, rfl, by decide⟩

/-- C4: the claim says `br 0` at function top level validates, resolving
to the function-level frame.  `validate_function` resets the control
stack and pushes no function-level frame, so the branch's label "0"
indexes an empty control stack and is rejected with the
index-out-of-range error. -/
theorem claim_C4 :
    Validator.validate_function emptyValidator [.Branch "0" [] false] [] [] []
      = .error (.error (.indexOutOfRangeRange 0 0)) :=
  rfl

/-- C5: the claim says an `EqualZero` comparison pops exactly one value
of the declared type before pushing `i32`.  The source's `EqualZero` arm
(validator.rs line 451-452) pops nothing: on an empty value stack, where
popping one operand would fail, validation succeeds and pushes `i32`;
with an `F64` on top, where popping would raise a type mismatch, it also
succeeds, leaving the `F64` in place. -/
theorem claim_C5 :
    Validator.validate emptyValidator (.Comparison .EqualZero .I32) [] ValueMapping.new
      = .ok { emptyValidator with value_stack := [.I32] }
    ∧ Validator.validate { emptyValidator with value_stack := [.F64] }
        (.Comparison .EqualZero .I32) [] ValueMapping.new
      = .ok { emptyValidator with value_stack := [.F64, .I32] } :=
  ⟨rfl, rfl⟩

/-- C6: the claim says lowering a const opcode yields a `Const` whose
declared type tag matches the opcode, in particular `F64` for
`f64.const`.  The source's `F64Const` arm (instruction.rs lines 746-749)
tags the produced `Const` with `I64`, even though the packed
`SerializedNumber` itself is tagged `F64`, and no assertion catches the
mismatch.  The input bits are the f64 pattern of 2.0. -/
theorem claim_C6 :
    SerializedInstruction.try_from (.F64Const 4611686018427387904)
      = .ok (.Const .I64 (SerializedNumber.from_f64 4611686018427387904))
    ∧ (SerializedNumber.from_f64 4611686018427387904).typ = .F64
    ∧ SerializableWatType.I64 ≠ SerializableWatType.F64 :=
  ⟨rfl, rfl, by decide⟩

/-- C7: `validate_function`, after the body loop succeeds and the
declared result types have been popped, succeeds exactly when the value
stack is then empty, and a non-empty residue is reported as the
extra-items-on-stack error.  The witness instantiates this at the spec's
example, a function of result `[I32]` whose body pushes two `i32`
constants. -/
theorem claim_C7 (v : Validator) (instructions : List SerializedInstruction)
    (params locals : List (Option String × SerializableWatType))
    (results : List SerializableWatType)
    (v1 v2 : Validator) (popped : List SerializableWatType)
    (hbody : (v.reset_stack).validate_body instructions results
      (ValueMapping.fromList (params ++ locals)) = .ok v1)
    (hpop : v1.pop_vals results = .ok (popped, v2)) :
    (v.validate_function instructions params locals results = .ok v2 ↔ v2.value_stack = [])
    ∧ (v2.value_stack ≠ [] → v.validate_function instructions params locals results
        = .error (.error (.extraItemsOnStackError v2.value_stack))) := by
  simp only [Validator.validate_function, hbody, hpop]
  by_cases h : v2.value_stack = [] <;> simp [h]

/-- Witness for C7 at the spec's example: result `[I32]`, body pushing
two `i32` constants, rejected with extra-items-on-stack `[I32]`. -/
theorem claim_C7_witness :
    Validator.validate_function emptyValidator
      [.Const .I32 (SerializedNumber.from_i32 1), .Const .I32 (SerializedNumber.from_i32 2)]
      [] [] [.I32]
      = .error (.error (.extraItemsOnStackError [.I32])) :=
  (claim_C7 emptyValidator
    [.Const .I32 (SerializedNumber.from_i32 1), .Const .I32 (SerializedNumber.from_i32 2)]
    [] [] [.I32] twoConstState oneConstState [.I32] (by rfl) (by rfl)).2 (by simp [oneConstState])

/-- C8: the claim says inline exports register the item's zero-based
index in its own kind's list.  The Memory arm (main.rs line 2386) and the
Global arm (line 2428) both register `func.len()` instead: with one
function assembled first, the inline-exported memory and global are
registered as `(Memory, 1)` and `(Global, 1)` although each sits at index
0 of its own one-element list. -/
theorem claim_C8 :
    InterpreterStructure.try_new exampleFields none = .ok exampleStructure
    ∧ hmGet exampleStructure.exported "m" = some (NumLocationKind.Memory, 1)
    ∧ exampleStructure.memory.length = 1
    ∧ hmGet exampleStructure.exported "g" = some (NumLocationKind.Global, 1)
    ∧ exampleStructure.globals.length = 1 :=
  ⟨rfl, rfl, rfl, rfl, rfl⟩

/-- C9: the claim says that when, after popping the frame's end types,
the value stack is still longer than the frame's recorded height,
`pop_control` returns an arity error value and never panics.  The
mismatch branch calls `WatError::not_enough_on_stack(height, len)`, whose
`assert!(actual < expected)` fails for `len > height`: with one extra
`I32` above a height-0 frame the code panics, both on a direct
`pop_control` and when reached through validating an `End` marker. -/
theorem claim_C9 :
    extraItemValidator.pop_control
      = .error (.panicked "assertion failed: actual < expected")
    ∧ Validator.validate extraItemValidator (.Block "" .End none) [] ValueMapping.new
      = .error (.panicked "assertion failed: actual < expected") :=
  ⟨rfl, rfl⟩

/-- C10: when an `End` closes an `Else` frame whose matching frame below
it is an `If` frame, differing labels make the conversion panic on
`assert!(label_then == label)` rather than return an error value, and
with equal labels the synthesized `ConditionalBlock` carries that common
label, so every conditional block assembled through an `Else` has its
else arm labelled identically to its if. -/
theorem claim_C10 (base : List WaitFrame) (ifF elseF : WaitFrame)
    (current : List SerializedInstructionNode) (hfe : Bool) (endLabel : String)
    (hIf : ifF.mark = .If) (hElse : elseF.mark = .Else) :
    (ifF.label ≠ elseF.label →
      tree_step ⟨base ++ [ifF, elseF], current, hfe⟩ (.Block endLabel .End none)
        = .error (.panicked "assertion failed: label_then == label"))
    ∧ (ifF.label = elseF.label →
      tree_step ⟨base ++ [ifF, elseF], current, hfe⟩ (.Block endLabel .End none)
        = .ok ⟨base, ifF.nodes ++ [.ConditionalBlock elseF.label ifF.inout elseF.nodes current],
            hfe⟩) := by
  constructor
  · intro hne
    simp only [tree_step]
    rw [show base ++ [ifF, elseF] = (base ++ [ifF]) ++ [elseF] by simp]
    rw [vec_pop_append]
    simp [hElse, vec_pop_append, hIf, hne]
  · intro heq
    simp only [tree_step]
    rw [show base ++ [ifF, elseF] = (base ++ [ifF]) ++ [elseF] by simp]
    rw [vec_pop_append]
    simp [hElse, vec_pop_append, hIf, heq]

/-- Witness for C10: an `if $a ... else $b ... end` stream panics on the
label assertion, while matching labels produce the conditional block
labelled with the common label. -/
theorem claim_C10_witness :
    tree_step ⟨[⟨[], .If, "a", {}⟩, ⟨[], .Else, "b", {}⟩], [], false⟩ (.Block "" .End none)
      = .error (.panicked "assertion failed: label_then == label")
    ∧ tree_step ⟨[⟨[], .If, "a", {}⟩, ⟨[], .Else, "a", {}⟩], [], false⟩ (.Block "" .End none)
      = .ok ⟨[], [.ConditionalBlock "a" {} [] []], false⟩ :=
  ⟨(claim_C10 [] ⟨[], .If, "a", {}⟩ ⟨[], .Else, "b", {}⟩ [] false "" rfl rfl).1 (by decide),
   (claim_C10 [] ⟨[], .If, "a", {}⟩ ⟨[], .Else, "a", {}⟩ [] false "" rfl rfl).2 rfl⟩

end WASVD
